import Mathlib

/-!
Verification of the access-control, rate-limiting, log-sanitization and
configuration subsystems of the mcp-n8n-workflow-builder repository.

Each definition is a shallow embedding of the corresponding TypeScript
function, translated from the source files:
  - src/src/utils/security.ts          (access control, rate limiter)
  - src/unnamed/part_003               (log sanitizer)
  - src/unnamed/part_002               (configuration validation)
  - src/src/utils/configEncryption.ts  (configuration crypto)
JavaScript-specific behaviours (falsy checks, typeof semantics) are
modelled explicitly and noted where they matter.
-/

/-! ## Access control (src/src/utils/security.ts) -/

/-- PermissionLevel enum from security.ts lines 8-12. -/
inductive PermissionLevel where
  | READ
  | WRITE
  | ADMIN
deriving DecidableEq, Repr

/-- UserPermissions interface from security.ts lines 17-22. -/
structure UserPermissions where
  allowedInstances : List String
  role : PermissionLevel
  userId : Option String
  sessionId : Option String
deriving DecidableEq, Repr

/-- OperationType enum from security.ts lines 27-38. -/
inductive OperationType where
  | READ_WORKFLOW
  | CREATE_WORKFLOW
  | UPDATE_WORKFLOW
  | DELETE_WORKFLOW
  | EXECUTE_WORKFLOW
  | ACTIVATE_WORKFLOW
  | DEACTIVATE_WORKFLOW
  | READ_EXECUTION
  | DELETE_EXECUTION
  | MANAGE_TAGS
deriving DecidableEq, Repr

/-- OPERATION_PERMISSIONS table from security.ts lines 43-54. -/
def OPERATION_PERMISSIONS : OperationType → List PermissionLevel
  | .READ_WORKFLOW => [.READ, .WRITE, .ADMIN]
  | .CREATE_WORKFLOW => [.WRITE, .ADMIN]
  | .UPDATE_WORKFLOW => [.WRITE, .ADMIN]
  | .DELETE_WORKFLOW => [.ADMIN]
  | .EXECUTE_WORKFLOW => [.WRITE, .ADMIN]
  | .ACTIVATE_WORKFLOW => [.WRITE, .ADMIN]
  | .DEACTIVATE_WORKFLOW => [.WRITE, .ADMIN]
  | .READ_EXECUTION => [.READ, .WRITE, .ADMIN]
  | .DELETE_EXECUTION => [.ADMIN]
  | .MANAGE_TAGS => [.WRITE, .ADMIN]

/-- Errors thrown by the access-control functions.  The source throws three
different error classes: a plain Error for an unknown instance
(security.ts line 103), InstanceAccessError (lines 76-86) and
AuthorizationError (lines 59-71).  Throwing is modelled by returning
`some` of the error; a normal return is `none`. -/
inductive SecurityError where
  | notFound (requested : String) (available : List String)
  | instanceAccess (requested : String) (allowed : List String)
  | authorization (operation : OperationType) (inst : String)
      (userRole : PermissionLevel) (required : List PermissionLevel)
deriving DecidableEq, Repr

/-- validateInstanceAccess from security.ts lines 91-116.  The source guard
`if (!instance) return` is a JavaScript falsy check, so it returns early
both when the instance argument is undefined (`none` here) and when it is
the empty string. -/
def validateInstanceAccess (inst : Option String) (availableInstances : List String)
    (userPermissions : Option UserPermissions) : Option SecurityError :=
  match inst with
  | none => none
  | some i =>
    if i = "" then none
    else if i ∉ availableInstances then some (.notFound i availableInstances)
    else
      match userPermissions with
      | none => none
      | some p =>
        if i ∈ p.allowedInstances ∨ "*" ∈ p.allowedInstances then none
        else some (.instanceAccess i p.allowedInstances)

/-- validateOperationPermission from security.ts lines 121-135. -/
def validateOperationPermission (operation : OperationType)
    (userPermissions : Option UserPermissions) : Option SecurityError :=
  match userPermissions with
  | none => none
  | some p =>
    if p.role ∈ OPERATION_PERMISSIONS operation then none
    else some (.authorization operation "unknown" p.role (OPERATION_PERMISSIONS operation))

/-- validateAccess from security.ts lines 140-148: instance check first,
then the operation check; the first raised error propagates. -/
def validateAccess (operation : OperationType) (inst : Option String)
    (availableInstances : List String)
    (userPermissions : Option UserPermissions) : Option SecurityError :=
  match validateInstanceAccess inst availableInstances userPermissions with
  | some e => some e
  | none => validateOperationPermission operation userPermissions

/-- Allowed-role table as enumerated by the claim: read operations admit
READ, WRITE and ADMIN; mutating operations admit WRITE and ADMIN; delete
operations admit only ADMIN.  Stated independently of
OPERATION_PERMISSIONS so the theorem compares the two. -/
def specAllowedRoles : OperationType → List PermissionLevel
  | .READ_WORKFLOW => [.READ, .WRITE, .ADMIN]
  | .READ_EXECUTION => [.READ, .WRITE, .ADMIN]
  | .CREATE_WORKFLOW => [.WRITE, .ADMIN]
  | .UPDATE_WORKFLOW => [.WRITE, .ADMIN]
  | .EXECUTE_WORKFLOW => [.WRITE, .ADMIN]
  | .ACTIVATE_WORKFLOW => [.WRITE, .ADMIN]
  | .DEACTIVATE_WORKFLOW => [.WRITE, .ADMIN]
  | .MANAGE_TAGS => [.WRITE, .ADMIN]
  | .DELETE_WORKFLOW => [.ADMIN]
  | .DELETE_EXECUTION => [.ADMIN]

/-- Claim C1: for every operation and supplied identity,
validateOperationPermission raises AuthorizationError (carrying the
operation, the role held and the required roles) exactly when the role is
outside the operation's fixed allowed-role set, and returns normally
exactly when the role is a member; in particular DELETE_WORKFLOW with
role WRITE raises and with role ADMIN does not. -/
theorem validateOperationPermission_matrix :
    (∀ (op : OperationType) (p : UserPermissions),
      (validateOperationPermission op (some p) =
          some (.authorization op "unknown" p.role (OPERATION_PERMISSIONS op)) ↔
        p.role ∉ specAllowedRoles op) ∧
      (validateOperationPermission op (some p) = none ↔ p.role ∈ specAllowedRoles op)) ∧
    validateOperationPermission .DELETE_WORKFLOW (some ⟨["*"], .WRITE, none, none⟩) =
      some (.authorization .DELETE_WORKFLOW "unknown" .WRITE [.ADMIN]) ∧
    validateOperationPermission .DELETE_WORKFLOW (some ⟨["*"], .ADMIN, none, none⟩) = none := by
  refine ⟨?_, by decide, by decide⟩
  intro op p
  obtain ⟨ai, r, u, s⟩ := p
  cases op <;> cases r <;>
    simp [validateOperationPermission, OPERATION_PERMISSIONS, specAllowedRoles]

/-- Claim C2 counterexample: the claim fails as stated.  First, the empty
string is a requested instance name present in availableInstances for
which the identity has no access, yet no error is raised, because the
source's falsy guard treats the empty string like an absent instance.
Second, with no identity supplied the function can still throw: a
requested instance absent from availableInstances raises the not-found
error even without an identity. -/
theorem validateInstanceAccess_claim_counterexample :
    validateInstanceAccess (some "") [""] (some ⟨["production"], .READ, none, none⟩) = none ∧
    ("" ∈ ([""] : List String)) ∧
    ¬("" ∈ (["production"] : List String) ∨ "*" ∈ (["production"] : List String)) ∧
    validateInstanceAccess (some "missing") ["production"] none =
      some (.notFound "missing" ["production"]) := by
  decide

/-- Claim C2 (amended): for every nonempty requested instance name present
in availableInstances and every supplied identity, validateInstanceAccess
raises InstanceAccessError iff the identity's allowedInstances contains
neither that name nor the wildcard; when no instance is requested it does
not throw, and when the requested instance is present but no identity is
supplied it does not throw.  The claim's two concrete staging examples
hold. -/
theorem validateInstanceAccess_spec :
    (∀ (i : String) (avail : List String) (p : UserPermissions),
      i ≠ "" → i ∈ avail →
      (validateInstanceAccess (some i) avail (some p) =
          some (.instanceAccess i p.allowedInstances) ↔
        ¬(i ∈ p.allowedInstances ∨ "*" ∈ p.allowedInstances)) ∧
      (validateInstanceAccess (some i) avail (some p) = none ↔
        (i ∈ p.allowedInstances ∨ "*" ∈ p.allowedInstances))) ∧
    (∀ (avail : List String) (up : Option UserPermissions),
      validateInstanceAccess none avail up = none) ∧
    (∀ (i : String) (avail : List String), i ∈ avail →
      validateInstanceAccess (some i) avail none = none) ∧
    validateInstanceAccess (some "staging") ["production", "staging"]
      (some ⟨["production"], .READ, none, none⟩) =
        some (.instanceAccess "staging" ["production"]) ∧
    validateInstanceAccess (some "staging") ["production", "staging"]
      (some ⟨["*"], .READ, none, none⟩) = none := by
  refine ⟨?_, fun avail up => rfl, ?_, by decide, by decide⟩
  · intro i avail p hne hmem
    simp [validateInstanceAccess, hne, hmem]
    by_cases h : i ∈ p.allowedInstances ∨ "*" ∈ p.allowedInstances <;> simp [h] <;> tauto
  · intro i avail hmem
    by_cases hne : i = "" <;> simp [validateInstanceAccess, hne, hmem]

/-- Witness for the amended C2 theorem at the claim's concrete input. -/
theorem validateInstanceAccess_spec_witness :
    validateInstanceAccess (some "staging") ["production", "staging"]
      (some ⟨["production"], .READ, none, none⟩) =
        some (.instanceAccess "staging" ["production"]) :=
  (validateInstanceAccess_spec.1 "staging" ["production", "staging"]
    ⟨["production"], .READ, none, none⟩ (by decide) (by decide)).1.mpr (by decide)

/-- Claim C3: validateAccess short-circuits on the instance check: any
instance-check error is returned unchanged (the operation check is never
consulted), and when the instance check passes the result is exactly the
operation-permission result.  The claim's concrete scenario holds: with
instances prod and stage and identity allowed only stage with role WRITE,
CREATE_WORKFLOW on prod fails with the instance-access error and on stage
passes both checks. -/
theorem validateAccess_composition :
    (∀ (op : OperationType) (inst : Option String) (avail : List String)
        (up : Option UserPermissions) (e : SecurityError),
      validateInstanceAccess inst avail up = some e →
      validateAccess op inst avail up = some e) ∧
    (∀ (op : OperationType) (inst : Option String) (avail : List String)
        (up : Option UserPermissions),
      validateInstanceAccess inst avail up = none →
      validateAccess op inst avail up = validateOperationPermission op up) ∧
    validateAccess .CREATE_WORKFLOW (some "prod") ["prod", "stage"]
      (some ⟨["stage"], .WRITE, none, none⟩) =
        some (.instanceAccess "prod" ["stage"]) ∧
    validateAccess .CREATE_WORKFLOW (some "stage") ["prod", "stage"]
      (some ⟨["stage"], .WRITE, none, none⟩) = none := by
  refine ⟨?_, ?_, by decide, by decide⟩
  · intro op inst avail up e h
    simp [validateAccess, h]
  · intro op inst avail up h
    simp [validateAccess, h]

/-- Witness for the C3 theorem: its short-circuit component applied at the
claim's concrete input, with the instance-check hypothesis discharged by
evaluation. -/
theorem validateAccess_composition_witness :
    validateAccess .CREATE_WORKFLOW (some "prod") ["prod", "stage"]
      (some ⟨["stage"], .WRITE, none, none⟩) =
        some (.instanceAccess "prod" ["stage"]) :=
  validateAccess_composition.1 .CREATE_WORKFLOW (some "prod") ["prod", "stage"]
    (some ⟨["stage"], .WRITE, none, none⟩)
    (.instanceAccess "prod" ["stage"]) (by decide)

/-! ## Rate limiter (src/src/utils/security.ts lines 182-238) -/

/-- RateLimitEntry from security.ts lines 182-185. -/
structure RateLimitEntry where
  count : Nat
  resetTime : Nat
deriving DecidableEq, Repr

/-- Result shape of checkRateLimit, security.ts line 203. -/
structure RateLimitResult where
  allowed : Bool
  remaining : Nat
  resetTime : Nat
deriving DecidableEq, Repr

/-- The in-memory Map of security.ts line 187, as an association list with
JavaScript Map semantics (set replaces in place, insertion order kept). -/
def RateLimitStore := List (String × RateLimitEntry)

/-- Map.get. -/
def storeGet : RateLimitStore → String → Option RateLimitEntry
  | [], _ => none
  | (k, v) :: r, key => if k = key then some v else storeGet r key

/-- Map.set: replace the existing binding in place, or append a new one. -/
def storeSet : RateLimitStore → String → RateLimitEntry → RateLimitStore
  | [], key, v => [(key, v)]
  | (k, w) :: r, key, v =>
    if k = key then (key, v) :: r else (k, w) :: storeSet r key v

/-- checkRateLimit from security.ts lines 199-238, with the mutable module
store passed and returned explicitly and Date.now() as the `now`
parameter. -/
def checkRateLimit (store : RateLimitStore) (now : Nat) (identifier : String)
    (maxRequests windowMs : Nat) : RateLimitResult × RateLimitStore :=
  match storeGet store identifier with
  | none =>
    let newEntry : RateLimitEntry := ⟨1, now + windowMs⟩
    (⟨true, maxRequests - 1, newEntry.resetTime⟩, storeSet store identifier newEntry)
  | some entry =>
    if now > entry.resetTime then
      let newEntry : RateLimitEntry := ⟨1, now + windowMs⟩
      (⟨true, maxRequests - 1, newEntry.resetTime⟩, storeSet store identifier newEntry)
    else if entry.count ≥ maxRequests then
      (⟨false, 0, entry.resetTime⟩, store)
    else
      let e : RateLimitEntry := ⟨entry.count + 1, entry.resetTime⟩
      (⟨true, maxRequests - e.count, e.resetTime⟩, storeSet store identifier e)

/-- First call of the C6 scenario: empty store, limit 3, window 60000. -/
def c6call1 (now : Nat) : RateLimitResult × RateLimitStore :=
  checkRateLimit [] now "u" 3 60000

/-- Second call of the C6 scenario, same fixed clock. -/
def c6call2 (now : Nat) : RateLimitResult × RateLimitStore :=
  checkRateLimit (c6call1 now).2 now "u" 3 60000

/-- Third call of the C6 scenario. -/
def c6call3 (now : Nat) : RateLimitResult × RateLimitStore :=
  checkRateLimit (c6call2 now).2 now "u" 3 60000

/-- Fourth call of the C6 scenario. -/
def c6call4 (now : Nat) : RateLimitResult × RateLimitStore :=
  checkRateLimit (c6call3 now).2 now "u" 3 60000

/-- Claim C6: with the clock fixed, three successive checkRateLimit calls
for identifier u with limit 3 and window 60000 are allowed with remaining
2, 1, 0; the fourth is denied with remaining 0 and leaves the store (and
hence the stored count and resetTime) unchanged. -/
theorem checkRateLimit_window_scenario (now : Nat) :
    (c6call1 now).1 = ⟨true, 2, now + 60000⟩ ∧
    (c6call2 now).1 = ⟨true, 1, now + 60000⟩ ∧
    (c6call3 now).1 = ⟨true, 0, now + 60000⟩ ∧
    (c6call4 now).1 = ⟨false, 0, now + 60000⟩ ∧
    (c6call4 now).2 = (c6call3 now).2 ∧
    storeGet (c6call4 now).2 "u" = some ⟨3, now + 60000⟩ := by
  have h : ¬(now + 60000 < now) := by omega
  refine ⟨?_, ?_, ?_, ?_, ?_, ?_⟩ <;>
    simp [c6call1, c6call2, c6call3, c6call4, checkRateLimit, storeGet, storeSet, h]

/-! ## Log sanitizer (src/unnamed/part_003) -/

/-!
JSON-like runtime values handled by the sanitizer.  Arrays and objects
are mutual inductives so that all functions below are structurally
recursive and compute by kernel reduction.
-/
mutual
inductive JValue where
  | null
  | bool (b : Bool)
  | num (n : Int)
  | str (s : String)
  | arr (xs : JArr)
  | obj (fs : JObj)
deriving Repr
inductive JArr where
  | nil
  | cons (head : JValue) (tail : JArr)
deriving Repr
inductive JObj where
  | nil
  | cons (key : String) (val : JValue) (tail : JObj)
deriving Repr
end

/-- Entries of an object, in order. -/
def JObj.toList : JObj → List (String × JValue)
  | .nil => []
  | .cons k v r => (k, v) :: JObj.toList r

/-- Keys of an object, in order. -/
def JObj.keys : JObj → List String
  | .nil => []
  | .cons k _ r => k :: JObj.keys r

/-- First binding of a key, mirroring JavaScript property lookup. -/
def JObj.lookupKey : JObj → String → Option JValue
  | .nil, _ => none
  | .cons k v r, key => if k = key then some v else JObj.lookupKey r key

/-- JavaScript `typeof value === 'object'`: true for null, arrays and
plain objects; false for booleans, numbers and strings. -/
def isJsObject : JValue → Bool
  | .null => true
  | .arr _ => true
  | .obj _ => true
  | _ => false

/-- Character-list test: does `p` occur at the start of `cs`. -/
def startsWithChars : List Char → List Char → Bool
  | [], _ => true
  | _ :: _, [] => false
  | a :: p, b :: cs => a == b && startsWithChars p cs

/-- Character-list test: does `p` occur contiguously anywhere in `cs`. -/
def containsChars (p : List Char) : List Char → Bool
  | [] => p.isEmpty
  | c :: cs => startsWithChars p (c :: cs) || containsChars p cs

/-- ASCII lowercasing of a string as a character list (the keys matched
by the source's patterns are ASCII, where JavaScript toLowerCase agrees
with Char.toLower). -/
def lowerChars (s : String) : List Char := s.toList.map Char.toLower

/-- SENSITIVE_PATTERNS from part_003 lines 9-19, applied as the source
does (lines 65-66): the key is lowercased and each case-insensitive regex
is an unanchored substring search.  The pattern api[_-]?key matches the
three spellings listed first. -/
def isSensitiveKey (key : String) : Bool :=
  let l := lowerChars key
  containsChars "apikey".toList l || containsChars "api_key".toList l ||
  containsChars "api-key".toList l || containsChars "password".toList l ||
  containsChars "token".toList l || containsChars "secret".toList l ||
  containsChars "credential".toList l || containsChars "auth".toList l ||
  containsChars "bearer".toList l || containsChars "x-api-key".toList l ||
  containsChars "authorization".toList l

/-- The character class [A-Za-z0-9+/] of base64 bodies. -/
def isB64Char (c : Char) : Bool := c.isAlphanum || c == '+' || c == '/'

/-- The character class [A-Z0-9]. -/
def isUpperDigit (c : Char) : Bool := ('A' ≤ c && c ≤ 'Z') || c.isDigit

/-- Regex sk-[a-zA-Z0-9]+ anchored at both ends (part_003 line 32). -/
def patSkKey : List Char → Bool
  | 's' :: 'k' :: '-' :: rest => !rest.isEmpty && rest.all Char.isAlphanum
  | _ => false

/-- Regex [A-Za-z0-9+/]{32,}={0,2} anchored (line 33).  Since the padding
char is outside the body class, a match decomposes uniquely into the
longest base64 run followed by the padding. -/
def patB64Token (cs : List Char) : Bool :=
  let body := cs.takeWhile isB64Char
  let rest := cs.dropWhile isB64Char
  32 ≤ body.length && rest.length ≤ 2 && rest.all (· == '=')

/-- Regex eyJ[A-Za-z0-9+/]+=* anchored (line 34). -/
def patJwt : List Char → Bool
  | 'e' :: 'y' :: 'J' :: rest =>
    let body := rest.takeWhile isB64Char
    let pad := rest.dropWhile isB64Char
    !body.isEmpty && pad.all (· == '=')
  | _ => false

/-- Regex AKIA[A-Z0-9]{16} anchored (line 35). -/
def patAws : List Char → Bool
  | 'A' :: 'K' :: 'I' :: 'A' :: rest => rest.length == 16 && rest.all isUpperDigit
  | _ => false

/-- Regex xox[bpoa]-[0-9]{12}-[0-9]{12}-[a-zA-Z0-9]{24} anchored (line
36); the fixed-width digit groups make the decomposition unique. -/
def patSlack : List Char → Bool
  | 'x' :: 'o' :: 'x' :: t :: '-' :: rest =>
    (t == 'b' || t == 'p' || t == 'o' || t == 'a') &&
    (let d1 := rest.take 12
     let r1 := rest.drop 12
     match r1 with
     | '-' :: r2 =>
       let d2 := r2.take 12
       let r3 := r2.drop 12
       match r3 with
       | '-' :: r4 =>
         d1.length == 12 && d1.all Char.isDigit &&
         d2.length == 12 && d2.all Char.isDigit &&
         r4.length == 24 && r4.all Char.isAlphanum
       | _ => false
     | _ => false)
  | _ => false

/-- Regex ghp_[a-zA-Z0-9]{36} anchored (line 37). -/
def patGithub : List Char → Bool
  | 'g' :: 'h' :: 'p' :: '_' :: rest => rest.length == 36 && rest.all Char.isAlphanum
  | _ => false

/-- Regex n8n-api-key-[a-zA-Z0-9]+ anchored (line 38). -/
def patN8nKey : List Char → Bool
  | 'n' :: '8' :: 'n' :: '-' :: 'a' :: 'p' :: 'i' :: '-' :: 'k' :: 'e' :: 'y' :: '-' :: rest =>
    !rest.isEmpty && rest.all Char.isAlphanum
  | _ => false

/-- Split a character list on a separator (like String.split). -/
def splitOnChar (sep : Char) : List Char → List (List Char)
  | [] => [[]]
  | c :: rest =>
    let r := splitOnChar sep rest
    if c == sep then [] :: r
    else
      match r with
      | [] => [[c]]
      | h :: t => (c :: h) :: t

/-- Regex [a-zA-Z0-9]+-[0-9]+-secret-[a-zA-Z0-9]+ anchored (line 39).
None of the classes admit a hyphen, so a match is exactly a four-way
hyphen split into alnum, digits, the literal secret, and alnum. -/
def patUserSecretId (cs : List Char) : Bool :=
  match splitOnChar '-' cs with
  | [a, d, s, b] =>
    !a.isEmpty && a.all Char.isAlphanum && !d.isEmpty && d.all Char.isDigit &&
    s == "secret".toList && !b.isEmpty && b.all Char.isAlphanum
  | _ => false

/-- Regex [a-zA-Z0-9]+-secret-[a-zA-Z0-9]+-[0-9]+ anchored (line 40). -/
def patSessionSecret (cs : List Char) : Bool :=
  match splitOnChar '-' cs with
  | [a, s, b, d] =>
    !a.isEmpty && a.all Char.isAlphanum && s == "secret".toList &&
    !b.isEmpty && b.all Char.isAlphanum && !d.isEmpty && d.all Char.isDigit
  | _ => false

/-- SECRET_PATTERNS.some(pattern => pattern.test(obj)) from part_003
lines 31-44. -/
def matchesSecretPattern (s : String) : Bool :=
  let cs := s.toList
  patSkKey cs || patB64Token cs || patJwt cs || patAws cs || patSlack cs ||
  patGithub cs || patN8nKey cs || patUserSecretId cs || patSessionSecret cs

/-- The long-token heuristic of part_003 line 49: length over 50, no
space, and only characters from [A-Za-z0-9+/=_-]. -/
def longTokenHeuristic (s : String) : Bool :=
  let cs := s.toList
  50 < cs.length && !cs.any (· == ' ') &&
  !cs.isEmpty && cs.all (fun c => c.isAlphanum || c == '+' || c == '/' || c == '=' ||
    c == '_' || c == '-')

/-- The string branch of sanitizeForLogging, part_003 lines 29-53. -/
def sanitizeStr (s : String) : String :=
  if matchesSecretPattern s then "[REDACTED_STRING]"
  else if longTokenHeuristic s then "[REDACTED_STRING]"
  else s

/-!
sanitizeForLogging from part_003 lines 24-77.  The depth guard is tested
first on every value; arrays recurse elementwise; objects redact a
sensitive key's value only when that value is not a JavaScript object,
and recurse otherwise.
-/
mutual
def sanitizeV : JValue → Nat → JValue
  | v, depth =>
    if depth > 10 then .str "[MAX_DEPTH_REACHED]"
    else
      match v with
      | .null => .null
      | .bool b => .bool b
      | .num n => .num n
      | .str s => .str (sanitizeStr s)
      | .arr xs => .arr (sanitizeA xs depth)
      | .obj fs => .obj (sanitizeO fs depth)
def sanitizeA : JArr → Nat → JArr
  | .nil, _ => .nil
  | .cons x r, depth => .cons (sanitizeV x (depth + 1)) (sanitizeA r depth)
def sanitizeO : JObj → Nat → JObj
  | .nil, _ => .nil
  | .cons k v r, depth =>
    .cons k
      (if isSensitiveKey k && !isJsObject v then .str "[REDACTED]"
       else sanitizeV v (depth + 1))
      (sanitizeO r depth)
end

/-- An entry's key occurs among the object's keys. -/
theorem mem_toList_key (fs : JObj) (k : String) (v : JValue)
    (h : (k, v) ∈ JObj.toList fs) : k ∈ JObj.keys fs :=
  match fs, h with
  | .cons k3 v3 r2, h => by
    simp only [JObj.toList, List.mem_cons] at h
    simp only [JObj.keys, List.mem_cons]
    rcases h with h3 | h4
    · exact Or.inl (congrArg Prod.fst h3)
    · exact Or.inr (mem_toList_key r2 k v h4)

/-- Key lookup in a sanitized object: with distinct keys, each entry of
the output carries the redacted value when the key is sensitive and its
value is a scalar, and the recursively sanitized value otherwise. -/
theorem sanitizeO_lookupKey (fs : JObj) (k : String) (v : JValue) (d : Nat)
    (hnd : (JObj.keys fs).Nodup) (hmem : (k, v) ∈ JObj.toList fs) :
    JObj.lookupKey (sanitizeO fs d) k =
      some (if isSensitiveKey k && !isJsObject v then .str "[REDACTED]"
            else sanitizeV v (d + 1)) :=
  match fs, hnd, hmem with
  | .nil, _, hmem => by simp [JObj.toList] at hmem
  | .cons k2 v2 r, hnd, hmem => by
    simp only [JObj.keys, List.nodup_cons] at hnd
    simp only [JObj.toList, List.mem_cons] at hmem
    rcases hmem with heq | htail
    · cases heq
      simp [sanitizeO, JObj.lookupKey]
    · have hkmem : k ∈ JObj.keys r := mem_toList_key r k v htail
      have hne : k2 ≠ k := fun h => hnd.1 (h ▸ hkmem)
      simp [sanitizeO, JObj.lookupKey, hne,
        sanitizeO_lookupKey r k v d hnd.2 htail]

/-- Claim C4: in the output of sanitizeForLogging on an object, a key
matching a sensitive pattern whose value is not a JavaScript object has
its value replaced with the [REDACTED] sentinel, a non-matching key keeps
its recursively sanitized value, and a matching key whose value is an
object is recursed into rather than blanket-redacted. -/
theorem sanitizeForLogging_sensitive_fields :
    ∀ (fs : JObj) (k : String) (v : JValue),
      (JObj.keys fs).Nodup → (k, v) ∈ JObj.toList fs →
      sanitizeV (.obj fs) 0 = .obj (sanitizeO fs 0) ∧
      (isSensitiveKey k = true → isJsObject v = false →
        JObj.lookupKey (sanitizeO fs 0) k = some (.str "[REDACTED]")) ∧
      (isSensitiveKey k = false →
        JObj.lookupKey (sanitizeO fs 0) k = some (sanitizeV v 1)) ∧
      (isSensitiveKey k = true → isJsObject v = true →
        JObj.lookupKey (sanitizeO fs 0) k = some (sanitizeV v 1)) := by
  intro fs k v hnd hmem
  have h := sanitizeO_lookupKey fs k v 0 hnd hmem
  refine ⟨by simp [sanitizeV], ?_, ?_, ?_⟩
  · intro hs ho
    rw [h]
    simp [hs, ho]
  · intro hs
    rw [h]
    simp [hs]
  · intro hs ho
    rw [h]
    simp [hs, ho]

/-- Concrete object for the C4 witness: a sensitive scalar field, a
non-sensitive sibling, and a sensitively named container object. -/
def c4obj : JObj :=
  .cons "password" (.str "hunter2")
    (.cons "name" (.str "bob")
      (.cons "auth" (.obj (.cons "user" (.str "u") .nil)) .nil))

/-- Witness for the C4 theorem at a concrete object, one application per
case of the claim. -/
theorem sanitizeForLogging_sensitive_fields_witness :
    JObj.lookupKey (sanitizeO c4obj 0) "password" = some (.str "[REDACTED]") ∧
    JObj.lookupKey (sanitizeO c4obj 0) "name" = some (sanitizeV (.str "bob") 1) ∧
    JObj.lookupKey (sanitizeO c4obj 0) "auth" =
      some (sanitizeV (.obj (.cons "user" (.str "u") .nil)) 1) := by
  refine ⟨?_, ?_, ?_⟩
  · exact (sanitizeForLogging_sensitive_fields c4obj "password" (.str "hunter2")
      (by decide) (by simp [c4obj, JObj.toList])).2.1 (by decide) (by decide)
  · exact (sanitizeForLogging_sensitive_fields c4obj "name" (.str "bob")
      (by decide) (by simp [c4obj, JObj.toList])).2.2.1 (by decide)
  · exact (sanitizeForLogging_sensitive_fields c4obj "auth"
      (.obj (.cons "user" (.str "u") .nil))
      (by decide) (by simp [c4obj, JObj.toList])).2.2.2 (by decide) (by decide)

/-- An object nested n levels deep with key a and the leaf string x. -/
def deepNest : Nat → JValue
  | 0 => .str "x"
  | n + 1 => .obj (.cons "a" (deepNest n) .nil)

/-- The same spine with the max-depth sentinel n levels down. -/
def deepSentinel : Nat → JValue
  | 0 => .str "[MAX_DEPTH_REACHED]"
  | n + 1 => .obj (.cons "a" (deepSentinel n) .nil)

/-- Claim C7: sanitizeForLogging is total (it is a Lean function, so it
never throws and never mutates its input) and depth-bounded: at any depth
beyond 10 it immediately returns the max-depth sentinel, and an object
nested 15 levels deep comes back with the sentinel in place of the
subtree at depth 11. -/
theorem sanitizeForLogging_depth_guard :
    (∀ (v : JValue) (d : Nat), 10 < d → sanitizeV v d = .str "[MAX_DEPTH_REACHED]") ∧
    sanitizeV (deepNest 15) 0 = deepSentinel 11 := by
  constructor
  · intro v d h
    rw [sanitizeV.eq_def]
    simp [h]
  · rfl

/-- Witness for the C7 theorem: the depth guard evaluated just past the
bound. -/
theorem sanitizeForLogging_depth_guard_witness :
    10 < 11 ∧ sanitizeV .null 11 = .str "[MAX_DEPTH_REACHED]" :=
  ⟨by decide, sanitizeForLogging_depth_guard.1 .null 11 (by decide)⟩

/-- Wrap a value in n singleton objects keyed a. -/
def mkWrapped : Nat → JValue → JValue
  | 0, v => v
  | n + 1, v => .obj (.cons "a" (mkWrapped n v) .nil)

/-- C10 counterexample input: a sensitively named key holding an object,
sitting at depth 10. -/
def c10cex : JValue := mkWrapped 10 (.obj (.cons "auth" (.obj .nil) .nil))

/-- Descend n times into the first field of nested objects. -/
def digFirst : Nat → JValue → Option JValue
  | 0, v => some v
  | n + 1, .obj (.cons _ v _) => digFirst n v
  | _ + 1, _ => none

/-- Claim C10 counterexample: sanitizeForLogging is not idempotent.  In
c10cex the key auth holds an object at depth 10, so the first pass
recurses into it and replaces it with the max-depth sentinel string;
on the second pass that string is a scalar under a sensitive key and
becomes [REDACTED], changing the value. -/
theorem sanitizeForLogging_not_idempotent :
    sanitizeV (sanitizeV c10cex 0) 0 ≠ sanitizeV c10cex 0 := by
  intro h
  have h2 := congrArg (digFirst 11) h
  have e1 : digFirst 11 (sanitizeV (sanitizeV c10cex 0) 0) = some (.str "[REDACTED]") := rfl
  have e2 : digFirst 11 (sanitizeV c10cex 0) = some (.str "[MAX_DEPTH_REACHED]") := rfl
  rw [e1, e2] at h2
  exact absurd (JValue.str.inj (Option.some.inj h2)) (by decide)

/-!
Nesting height of a value: leaves are 0, arrays and objects one more
than their deepest member.  sanitizeForLogging called at depth d never
reaches its depth guard on a value v with d + heightV v at most 10.
-/
mutual
def heightV : JValue → Nat
  | .null => 0
  | .bool _ => 0
  | .num _ => 0
  | .str _ => 0
  | .arr xs => heightA xs + 1
  | .obj fs => heightO fs + 1
def heightA : JArr → Nat
  | .nil => 0
  | .cons x r => max (heightV x) (heightA r)
def heightO : JObj → Nat
  | .nil => 0
  | .cons _ v r => max (heightV v) (heightO r)
end

/-- Unfolding of sanitizeV below the depth guard, null case. -/
theorem sanitizeV_null (d : Nat) (hd : ¬d > 10) : sanitizeV .null d = .null := by
  rw [sanitizeV.eq_def]
  simp [hd]

/-- Unfolding of sanitizeV below the depth guard, boolean case. -/
theorem sanitizeV_bool (b : Bool) (d : Nat) (hd : ¬d > 10) :
    sanitizeV (.bool b) d = .bool b := by
  rw [sanitizeV.eq_def]
  simp [hd]

/-- Unfolding of sanitizeV below the depth guard, number case. -/
theorem sanitizeV_num (n : Int) (d : Nat) (hd : ¬d > 10) :
    sanitizeV (.num n) d = .num n := by
  rw [sanitizeV.eq_def]
  simp [hd]

/-- Unfolding of sanitizeV below the depth guard, string case. -/
theorem sanitizeV_str (s : String) (d : Nat) (hd : ¬d > 10) :
    sanitizeV (.str s) d = .str (sanitizeStr s) := by
  rw [sanitizeV.eq_def]
  simp [hd]

/-- Unfolding of sanitizeV below the depth guard, array case. -/
theorem sanitizeV_arr (xs : JArr) (d : Nat) (hd : ¬d > 10) :
    sanitizeV (.arr xs) d = .arr (sanitizeA xs d) := by
  rw [sanitizeV.eq_def]
  simp [hd]

/-- Unfolding of sanitizeV below the depth guard, object case. -/
theorem sanitizeV_obj (fs : JObj) (d : Nat) (hd : ¬d > 10) :
    sanitizeV (.obj fs) d = .obj (sanitizeO fs d) := by
  rw [sanitizeV.eq_def]
  simp [hd]

/-- The string branch is idempotent: both sentinels match no secret
pattern and fail the long-token heuristic, and an untouched string is
untouched again. -/
theorem sanitizeStr_idem (s : String) : sanitizeStr (sanitizeStr s) = sanitizeStr s := by
  have hR : sanitizeStr "[REDACTED_STRING]" = "[REDACTED_STRING]" := by decide
  by_cases h1 : matchesSecretPattern s
  · rw [show sanitizeStr s = "[REDACTED_STRING]" from by simp [sanitizeStr, h1], hR]
  · by_cases h2 : longTokenHeuristic s
    · rw [show sanitizeStr s = "[REDACTED_STRING]" from by simp [sanitizeStr, h1, h2], hR]
    · rw [show sanitizeStr s = s from by simp [sanitizeStr, h1, h2]]
      simp [sanitizeStr, h1, h2]

/-- Strings are not JavaScript objects. -/
theorem isJsObject_str (s : String) : isJsObject (.str s) = false := rfl

/-- Below the guard, sanitizeV maps each constructor to the same
constructor, so the JavaScript typeof-object test is preserved. -/
theorem isJsObject_sanitizeV (v : JValue) (d : Nat) (hle : d ≤ 10) :
    isJsObject (sanitizeV v d) = isJsObject v := by
  have hd : ¬d > 10 := by omega
  cases v with
  | null => rw [sanitizeV_null d hd]
  | bool b => rw [sanitizeV_bool b d hd]
  | num n => rw [sanitizeV_num n d hd]
  | str s =>
    rw [sanitizeV_str s d hd]
    rfl
  | arr xs =>
    rw [sanitizeV_arr xs d hd]
    rfl
  | obj fs =>
    rw [sanitizeV_obj fs d hd]
    rfl

/-!
Mutual idempotence lemmas for values, arrays and objects whose height
keeps every recursive call below the depth guard.
-/
mutual
theorem sanitizeV_idem (v : JValue) (d : Nat) (h : d + heightV v ≤ 10) :
    sanitizeV (sanitizeV v d) d = sanitizeV v d := by
  have hd : ¬d > 10 := by omega
  cases v with
  | null => rw [sanitizeV_null d hd, sanitizeV_null d hd]
  | bool b => rw [sanitizeV_bool b d hd, sanitizeV_bool b d hd]
  | num n => rw [sanitizeV_num n d hd, sanitizeV_num n d hd]
  | str s => rw [sanitizeV_str s d hd, sanitizeV_str (sanitizeStr s) d hd, sanitizeStr_idem]
  | arr xs =>
    simp only [heightV] at h
    rw [sanitizeV_arr xs d hd, sanitizeV_arr (sanitizeA xs d) d hd,
      sanitizeA_idem xs d (by omega)]
  | obj fs =>
    simp only [heightV] at h
    rw [sanitizeV_obj fs d hd, sanitizeV_obj (sanitizeO fs d) d hd,
      sanitizeO_idem fs d (by omega)]
theorem sanitizeA_idem (xs : JArr) (d : Nat) (h : d + heightA xs ≤ 9) :
    sanitizeA (sanitizeA xs d) d = sanitizeA xs d := by
  cases xs with
  | nil => rfl
  | cons x r =>
    simp only [heightA] at h
    have hx : heightV x ≤ max (heightV x) (heightA r) := Nat.le_max_left _ _
    have hr : heightA r ≤ max (heightV x) (heightA r) := Nat.le_max_right _ _
    simp only [sanitizeA]
    rw [sanitizeV_idem x (d + 1) (by omega), sanitizeA_idem r d (by omega)]
theorem sanitizeO_idem (fs : JObj) (d : Nat) (h : d + heightO fs ≤ 9) :
    sanitizeO (sanitizeO fs d) d = sanitizeO fs d := by
  cases fs with
  | nil => rfl
  | cons k v r =>
    simp only [heightO] at h
    have hv : heightV v ≤ max (heightV v) (heightO r) := Nat.le_max_left _ _
    have hr : heightO r ≤ max (heightV v) (heightO r) := Nat.le_max_right _ _
    simp only [sanitizeO]
    rw [sanitizeO_idem r d (by omega)]
    by_cases hc : (isSensitiveKey k && !isJsObject v) = true
    · have hs : isSensitiveKey k = true := by
        revert hc
        cases isSensitiveKey k <;> simp
      have hvf : isJsObject v = false := by
        revert hc
        rw [hs]
        cases isJsObject v <;> simp
      simp [hc, hs, hvf, isJsObject_str]
    · have hcf : (isSensitiveKey k && !isJsObject v) = false := by
        revert hc
        cases isSensitiveKey k && !isJsObject v <;> simp
      have hobj : isJsObject (sanitizeV v (d + 1)) = isJsObject v :=
        isJsObject_sanitizeV v (d + 1) (by omega)
      have hcf2 : (isSensitiveKey k && !isJsObject (sanitizeV v (d + 1))) = false := by
        rw [hobj]
        exact hcf
      simp only [hcf, hcf2, Bool.false_eq_true, if_false]
      rw [sanitizeV_idem v (d + 1) (by omega)]
end

/-- Claim C10 (amended): sanitizeForLogging is idempotent on every input
whose nesting height is at most 10, so that the depth guard is never
reached; all three redaction sentinels survive the string checks
unchanged.  (For deeper inputs idempotence fails, as the counterexample
shows: an object value under a sensitive key at depth 10 becomes the
max-depth sentinel string on the first pass and [REDACTED] on the
second.) -/
theorem sanitizeForLogging_idempotent_bounded :
    (∀ v : JValue, heightV v ≤ 10 → sanitizeV (sanitizeV v 0) 0 = sanitizeV v 0) ∧
    sanitizeStr "[REDACTED]" = "[REDACTED]" ∧
    sanitizeStr "[REDACTED_STRING]" = "[REDACTED_STRING]" ∧
    sanitizeStr "[MAX_DEPTH_REACHED]" = "[MAX_DEPTH_REACHED]" :=
  ⟨fun v hv => sanitizeV_idem v 0 (by omega), by decide, by decide, by decide⟩

/-- Witness for the amended C10 theorem at a concrete object with one
sensitive scalar field. -/
theorem sanitizeForLogging_idempotent_bounded_witness :
    heightV (.obj (.cons "password" (.str "x") .nil)) ≤ 10 ∧
    sanitizeV (sanitizeV (.obj (.cons "password" (.str "x") .nil)) 0) 0 =
      sanitizeV (.obj (.cons "password" (.str "x") .nil)) 0 :=
  ⟨by decide, sanitizeForLogging_idempotent_bounded.1
    (.obj (.cons "password" (.str "x") .nil)) (by decide)⟩

/-! ## Configuration validation (src/unnamed/part_002 lines 1340-1466) -/

/-- N8NInstance shape validated by the configuration schemas. -/
structure N8NInstance where
  n8n_host : String
  n8n_api_key : String
deriving DecidableEq, Repr

/-- MultiInstanceConfig shape: named environments plus a default name.
JavaScript object keys are unique and ordered, modelled as an
association list. -/
structure MultiInstanceConfig where
  environments : List (String × N8NInstance)
  defaultEnv : String
deriving DecidableEq, Repr

/-- The character class [a-zA-Z0-9_-] used by every name and key pattern
in the schemas. -/
def nameCharOk (c : Char) : Bool := c.isAlphanum || c == '_' || c == '-'

/-- The anchored pattern [a-zA-Z0-9_-]+ applied to environment names
(part_002 line 1381) and to defaultEnv (line 1399). -/
def envNameOk (s : String) : Bool := !s.toList.isEmpty && s.toList.all nameCharOk

/-- The anchored pattern [a-zA-Z0-9_-]+ applied to API keys (part_002
lines 1353 and 1389). -/
def apiKeyCharsOk (s : String) : Bool := !s.toList.isEmpty && s.toList.all nameCharOk

/-- Joi message for an empty environments object (part_002 line 1395). -/
def minEnvsMsg : String := "At least one environment must be configured"

/-- Joi message for more than ten environments (part_002 line 1396). -/
def maxEnvsMsg : String := "Maximum 10 environments allowed"

/-- Joi detail for an environment host failing the uri check. -/
def hostMsg (name : String) : String :=
  "environments." ++ name ++ ".n8n_host must be a valid uri"

/-- Joi detail for an environment API key shorter than 10. -/
def keyMinMsg (name : String) : String :=
  "environments." ++ name ++ ".n8n_api_key length must be at least 10 characters long"

/-- Joi detail for an environment API key longer than 500. -/
def keyMaxMsg (name : String) : String :=
  "environments." ++ name ++ ".n8n_api_key length must be less than or equal to 500 characters long"

/-- Joi detail for an environment API key failing the charset pattern. -/
def keyCharsMsg (name : String) : String :=
  "environments." ++ name ++ ".n8n_api_key fails to match the required pattern"

/-- Custom message for defaultEnv failing its pattern (part_002 line 1402). -/
def defaultEnvPatternMsg : String :=
  "Default environment name can only contain alphanumeric characters, hyphens, and underscores"

/-- All violations of one environment entry against the value schema of
multiInstanceConfig.environments (part_002 lines 1382-1391).  Joi's uri
check with scheme http/https is an external library routine and is a
parameter uriOk throughout. -/
def envViolations (uriOk : String → Bool) (e : String × N8NInstance) : List String :=
  (if uriOk e.2.n8n_host then [] else [hostMsg e.1]) ++
  (if e.2.n8n_api_key.length < 10 then [keyMinMsg e.1] else []) ++
  (if 500 < e.2.n8n_api_key.length then [keyMaxMsg e.1] else []) ++
  (if apiKeyCharsOk e.2.n8n_api_key then [] else [keyCharsMsg e.1])

/-- All violations collected by validating a config against the
multiInstanceConfig schema with abortEarly false (part_002 lines
1376-1404 and 1441-1444): size bounds on the environments object, every
per-environment field violation, and the defaultEnv pattern. -/
def multiConfigViolations (uriOk : String → Bool)
    (envs : List (String × N8NInstance)) (denv : String) : List String :=
  (if envs.length < 1 then [minEnvsMsg] else []) ++
  (if 10 < envs.length then [maxEnvsMsg] else []) ++
  envs.flatMap (envViolations uriOk) ++
  (if envNameOk denv then [] else [defaultEnvPatternMsg])

/-- Violations of the standalone n8nInstance schema with its custom
messages (part_002 lines 1342-1361). -/
def n8nInstanceViolations (uriOk : String → Bool) (inst : N8NInstance) : List String :=
  (if uriOk inst.n8n_host then [] else ["n8n_host must be a valid HTTP/HTTPS URL"]) ++
  (if inst.n8n_api_key.length < 10 then
    ["n8n_api_key must be at least 10 characters long"] else []) ++
  (if 500 < inst.n8n_api_key.length then
    ["n8n_api_key must not exceed 500 characters"] else []) ++
  (if apiKeyCharsOk inst.n8n_api_key then []
   else ["n8n_api_key can only contain alphanumeric characters, hyphens, and underscores"])

/-- validateN8NInstance from part_002 lines 1422-1434: collect all
violations, join them, and throw on any. -/
def validateN8NInstance (uriOk : String → Bool) (inst : N8NInstance) :
    Except String N8NInstance :=
  match n8nInstanceViolations uriOk inst with
  | [] => .ok inst
  | errs => .error ("Invalid N8N instance configuration: " ++ String.intercalate "; " errs)

/-- Own-key lookup in the environments map. -/
def lookupEnv : List (String × N8NInstance) → String → Option N8NInstance
  | [], _ => none
  | (k, v) :: r, key => if k = key then some v else lookupEnv r key

/-- Property names a plain JavaScript object inherits from
Object.prototype.  A property access with any of these names on an
object without an own key of that name yields the inherited value,
which is truthy in every case (a built-in function, or the prototype
object itself for proto).  All of them match the Joi environment-name
pattern [a-zA-Z0-9_-]+. -/
def protoProps : List String :=
  ["constructor", "hasOwnProperty", "isPrototypeOf", "propertyIsEnumerable",
   "toLocaleString", "toString", "valueOf", "__defineGetter__",
   "__defineSetter__", "__lookupGetter__", "__lookupSetter__", "__proto__"]

/-- Truthiness of the JavaScript property access environments[name] on a
plain object (part_002 line 1452): an own key hits its instance object,
which is always truthy, and otherwise the access walks the prototype
chain, so any Object.prototype property name also yields a truthy
value. -/
def jsPropTruthy (l : List (String × N8NInstance)) (key : String) : Bool :=
  (lookupEnv l key).isSome || protoProps.contains key

/-- The per-environment revalidation loop of validateMultiInstanceConfig
(part_002 lines 1457-1463): the first failing environment aborts. -/
def firstEnvError (uriOk : String → Bool) :
    List (String × N8NInstance) → Option String
  | [] => none
  | e :: r =>
    match validateN8NInstance uriOk e.2 with
    | .error msg => some ("Environment " ++ e.1 ++ ": " ++ msg)
    | .ok _ => firstEnvError uriOk r

/-- validateMultiInstanceConfig from part_002 lines 1439-1466.  Joi is
run with stripUnknown, so keys failing the environments key pattern are
dropped from the validated value rather than reported; the remaining
violations are collected with abortEarly false and thrown together.  On
schema success the defaultEnv check runs (line 1452): it is a falsy
test on the plain property access environments[defaultEnv], modelled by
jsPropTruthy including its prototype-chain hits, then the
per-environment revalidation loop, then the validated value is
returned. -/
def validateMultiInstanceConfig (uriOk : String → Bool)
    (config : MultiInstanceConfig) : Except (List String) MultiInstanceConfig :=
  let envs := config.environments.filter fun e => envNameOk e.1
  if (multiConfigViolations uriOk envs config.defaultEnv).isEmpty then
    if jsPropTruthy envs config.defaultEnv then
      match firstEnvError uriOk envs with
      | some msg => .error [msg]
      | none => .ok ⟨envs, config.defaultEnv⟩
    else
      .error ["Default environment " ++ config.defaultEnv ++ " not found in environments"]
  else .error (multiConfigViolations uriOk envs config.defaultEnv)

/-- Sample scheme check standing in for the Joi uri validator in the
concrete witnesses. -/
def uriOk0 (s : String) : Bool :=
  startsWithChars "http://".toList s.toList || startsWithChars "https://".toList s.toList

/-- Concrete configuration whose defaultEnv names no environment. -/
def c8cfg : MultiInstanceConfig :=
  ⟨[("prod", ⟨"https://example.com", "abcdefghij"⟩)], "staging"⟩

/-- Concrete configuration whose defaultEnv is an inherited
Object.prototype property name rather than a key of environments. -/
def c8bugCfg : MultiInstanceConfig :=
  ⟨[("prod", ⟨"https://example.com", "abcdefghij"⟩)], "constructor"⟩

/-- Claim C8 is the code's intent but the code is wrong: the membership
check at part_002 line 1452 is a falsy test on a prototype-chain
property access, so the defaultEnv name constructor, which matches the
Joi name pattern and hits the inherited truthy
Object.prototype.constructor, escapes the check and validation returns
a configuration whose defaultEnv is not a key of its environments map
(contradicting the check's own not-found error message and the claimed
invariant).  An ordinary missing default such as staging still throws
as the claim says. -/
theorem validateMultiInstanceConfig_prototype_bug :
    validateMultiInstanceConfig uriOk0 c8bugCfg = .ok c8bugCfg ∧
    c8bugCfg.defaultEnv ∉ c8bugCfg.environments.map Prod.fst ∧
    (∃ errs, validateMultiInstanceConfig uriOk0 c8cfg = .error errs) ∧
    c8cfg.defaultEnv ∉ c8cfg.environments.map Prod.fst :=
  ⟨rfl, by decide, ⟨_, rfl⟩, by decide⟩

/-- Claim C9: when a submitted configuration has several field
violations, for instance an invalid host URL in one environment and a
too-short API key in another, the single configuration error raised
carries all of them, not merely the first. -/
theorem validateMultiInstanceConfig_collects_all :
    ∀ (uriOk : String → Bool) (config : MultiInstanceConfig)
      (nA : String) (iA : N8NInstance) (nB : String) (iB : N8NInstance),
      (nA, iA) ∈ config.environments → (nB, iB) ∈ config.environments →
      envNameOk nA = true → envNameOk nB = true →
      uriOk iA.n8n_host = false → iB.n8n_api_key.length < 10 →
      ∃ errs, validateMultiInstanceConfig uriOk config = .error errs ∧
        hostMsg nA ∈ errs ∧ keyMinMsg nB ∈ errs := by
  intro uriOk config nA iA nB iB hA hB hokA hokB huriA hkeyB
  have memA : (nA, iA) ∈ config.environments.filter fun e => envNameOk e.1 :=
    List.mem_filter.mpr ⟨hA, hokA⟩
  have memB : (nB, iB) ∈ config.environments.filter fun e => envNameOk e.1 :=
    List.mem_filter.mpr ⟨hB, hokB⟩
  have mA : hostMsg nA ∈ multiConfigViolations uriOk
      (config.environments.filter fun e => envNameOk e.1) config.defaultEnv := by
    unfold multiConfigViolations
    refine List.mem_append_left _ (List.mem_append_right _ (List.mem_flatMap.mpr ⟨(nA, iA), memA, ?_⟩))
    simp [envViolations, huriA]
  have mB : keyMinMsg nB ∈ multiConfigViolations uriOk
      (config.environments.filter fun e => envNameOk e.1) config.defaultEnv := by
    unfold multiConfigViolations
    refine List.mem_append_left _ (List.mem_append_right _ (List.mem_flatMap.mpr ⟨(nB, iB), memB, ?_⟩))
    simp [envViolations, hkeyB]
  have hie : (multiConfigViolations uriOk
      (config.environments.filter fun e => envNameOk e.1) config.defaultEnv).isEmpty = false := by
    rcases hmc : multiConfigViolations uriOk
        (config.environments.filter fun e => envNameOk e.1) config.defaultEnv with _ | ⟨a, l⟩
    · rw [hmc] at mA
      cases mA
    · rfl
  refine ⟨_, ?_, mA, mB⟩
  simp only [validateMultiInstanceConfig, hie, if_false, Bool.false_eq_true]

/-- Concrete configuration with an invalid host in environment a and a
too-short API key in environment b. -/
def c9cfg : MultiInstanceConfig :=
  ⟨[("a", ⟨"not-a-url", "abcdefghij"⟩), ("b", ⟨"https://x.example", "short"⟩)], "a"⟩

/-- Witness for the C9 theorem: both violations are reported together on
the concrete configuration. -/
theorem validateMultiInstanceConfig_collects_all_witness :
    ∃ errs, validateMultiInstanceConfig uriOk0 c9cfg = .error errs ∧
      hostMsg "a" ∈ errs ∧ keyMinMsg "b" ∈ errs :=
  validateMultiInstanceConfig_collects_all uriOk0 c9cfg
    "a" ⟨"not-a-url", "abcdefghij"⟩ "b" ⟨"https://x.example", "short"⟩
    (by simp [c9cfg]) (by simp [c9cfg]) (by decide) (by decide) (by decide) (by decide)

/-! ## Configuration crypto (src/src/utils/configEncryption.ts) -/

/-!
encryptConfig and decryptConfig build an envelope around Node's crypto
primitives: pbkdf2Sync derives a key from the password and a random
salt, createCipher/createDecipher turn that key deterministically into
the working aes-256-gcm key, and the cipher authenticates the salt as
additional data.  Those library routines are not part of this
repository, so they are a parameter: an AEADScheme packages a key
derivation, a (de)serialization of configuration values, and an
authenticated cipher, together with the contracts the library provides:
decryption with the encrypting key and AAD returns the plaintext,
decryption of a ciphertext under a different key fails authentication,
key derivation is injective in the password for a fixed salt (the ideal
behaviour the scheme relies on), and parsing inverts serialization.
The envelope logic proved here is the repository's own code.
-/
structure AEADScheme (PT CT : Type) where
  kdf : String → String → String
  serializeCfg : JValue → PT
  deserializeCfg : PT → Option JValue
  enc : String → String → PT → CT × String
  dec : String → String → CT → String → Option PT
  dec_enc : ∀ k aad m, dec k aad (enc k aad m).1 (enc k aad m).2 = some m
  dec_wrongKey : ∀ k k2 aad m, k ≠ k2 → dec k2 aad (enc k aad m).1 (enc k aad m).2 = none
  kdf_inj : ∀ p p2 s, kdf p s = kdf p2 s → p = p2
  deserialize_serialize : ∀ v, deserializeCfg (serializeCfg v) = some v

/-- The {salt, iv, tag, data} envelope of configEncryption.ts lines
40-45. -/
structure EncryptedBlob (CT : Type) where
  salt : String
  iv : String
  tag : String
  data : CT

/-- encryptConfig from configEncryption.ts lines 24-51: generate salt
and iv (passed in here, as the source draws them from randomBytes),
derive the key from password and salt, encrypt the serialized
configuration with the salt as additional authenticated data, and pack
the envelope.  As in the source, the iv is stored but not an input of
the cipher, which derives its own working state from the key. -/
def encryptConfig {PT CT : Type} (A : AEADScheme PT CT) (salt iv : String)
    (config : JValue) (password : String) : EncryptedBlob CT :=
  let key := A.kdf password salt
  let ct := A.enc key salt (A.serializeCfg config)
  ⟨salt, iv, ct.2, ct.1⟩

/-- decryptConfig from configEncryption.ts lines 56-77: re-derive the
key from the stored salt, decrypt checking the authentication tag, and
parse the plaintext; any failure is the undifferentiated decryption
error of line 75. -/
def decryptConfig {PT CT : Type} (A : AEADScheme PT CT) (blob : EncryptedBlob CT)
    (password : String) : Except String JValue :=
  let key := A.kdf password blob.salt
  match A.dec key blob.salt blob.data blob.tag with
  | none => .error "Configuration decryption failed: Invalid password or corrupted data"
  | some pt =>
    match A.deserializeCfg pt with
    | none => .error "Configuration decryption failed: Invalid password or corrupted data"
    | some v => .ok v

/-- Claim C5: for every configuration value and every salt and iv,
decrypting the encryption under the same password returns the
configuration, and decrypting under any other password fails with the
decryption error. -/
theorem decryptConfig_encryptConfig :
    ∀ (PT CT : Type) (A : AEADScheme PT CT) (salt iv : String)
      (config : JValue) (pw pw2 : String),
      decryptConfig A (encryptConfig A salt iv config pw) pw = .ok config ∧
      (pw2 ≠ pw →
        ∃ msg, decryptConfig A (encryptConfig A salt iv config pw) pw2 = .error msg) := by
  intro PT CT A salt iv config pw pw2
  constructor
  · simp [decryptConfig, encryptConfig, A.dec_enc, A.deserialize_serialize]
  · intro hne
    have hk : A.kdf pw salt ≠ A.kdf pw2 salt := fun h => hne (A.kdf_inj pw pw2 salt h).symm
    refine ⟨"Configuration decryption failed: Invalid password or corrupted data", ?_⟩
    simp [decryptConfig, encryptConfig, A.dec_wrongKey _ _ _ _ hk]

/-- A toy scheme satisfying the AEAD contracts, for the witness: the
plaintext and ciphertext types are configuration values themselves, the
derived key is the password, and the tag records the encrypting key. -/
def toyAEAD : AEADScheme JValue JValue where
  kdf := fun p _ => p
  serializeCfg := id
  deserializeCfg := some
  enc := fun k _ m => (m, k)
  dec := fun k2 _ ct tag => if tag = k2 then some ct else none
  dec_enc := fun k aad m => by simp
  dec_wrongKey := fun k k2 aad m h => by simp [h]
  kdf_inj := fun p p2 s h => h
  deserialize_serialize := fun v => rfl

/-- Witness for the C5 theorem: the round trip on a concrete
configuration under the toy scheme, with the wrong-password hypothesis
discharged at the passwords pw and wrong. -/
theorem decryptConfig_encryptConfig_witness :
    decryptConfig toyAEAD (encryptConfig toyAEAD "salt" "iv" (.str "cfg") "pw") "pw" =
      .ok (.str "cfg") ∧
    ∃ msg, decryptConfig toyAEAD
      (encryptConfig toyAEAD "salt" "iv" (.str "cfg") "pw") "wrong" = .error msg :=
  ⟨(decryptConfig_encryptConfig JValue JValue toyAEAD "salt" "iv" (.str "cfg") "pw" "wrong").1,
   (decryptConfig_encryptConfig JValue JValue toyAEAD "salt" "iv" (.str "cfg") "pw" "wrong").2
     (by decide)⟩
